import Mathlib

/-!
Verification of the campaign-generation pipeline of the Neural.Net AgenticAI
repository, as a shallow embedding in Lean 4.

Modelling conventions, applied uniformly:
- JavaScript objects become Lean structures; JSON-object contents that are
  manipulated by key become association lists `List (String × String)`.
- Machine strings are `String`; JS truthiness of a string field (`if (x)`)
  is translated to `x ≠ ""` (the creation entrypoint stores `""` for absent
  optional brief fields, so `undefined` never reaches the consumers modelled
  here).
- Fallible external calls (language-model calls, image-provider HTTP calls,
  object-storage uploads) are supplied by an oracle record: each call site
  reads an `Except String α` (or a response structure) from the oracle, the
  error string standing for the thrown message.
- The database is modelled as pure state (campaign record, asset list, log
  list) mutated by the workflow; database writes themselves are not a failure
  source in the model.
- Wall-clock readings (`Date.now()` deltas for durations and the timestamp
  embedded in object-storage keys) do not affect any verified property;
  duration fields are omitted from the log model and the key timestamp is an
  oracle input.
-/

set_option autoImplicit false
set_option linter.unusedVariables false
set_option linter.unnecessarySeqFocus false

namespace NeuralNet

/-- Campaign brief JSON object as assembled by the creation entrypoint
(part_003) and consumed by the workflow. Optional inputs are stored as `""`
when absent, exactly as the creation entrypoint does; `tagline` and
`description` are added to the brief by the Writer stage. -/
structure Brief where
  goal : String
  tone : String
  audience : String
  keywords : String
  brandColorPrimary : String
  brandColorSecondary : String
  visualStyle : String
  imageryPreference : String
  brandThemes : String
  templateInstructions : String
  imageModel : String
  fontFamily : String
  tagline : Option String
  description : Option String
deriving DecidableEq, Repr

/-- Lookup table `imageryStyles` from buildOpenSourceImagePrompt
(image-generation.ts, lines 416-423). -/
def imageryStyles (k : String) : Option String :=
  if k == "photography" then some "photorealistic, high-quality photography style, professional camera"
  else if k == "illustration" then some "digital illustration style, artistic, hand-drawn aesthetic"
  else if k == "abstract" then some "abstract and conceptual art style, modern art"
  else if k == "geometric" then some "geometric patterns and shapes, structured design, clean lines"
  else if k == "mixed" then some "mixed media approach, creative fusion, collage style"
  else if k == "3d" then some "3D rendered, modern CGI style, volumetric lighting"
  else none

/-- Lookup table `visualDescriptors` from buildOpenSourceImagePrompt
(image-generation.ts, lines 429-438). -/
def visualDescriptors (k : String) : Option String :=
  if k == "minimalist" then some "minimalist design, clean lines, simple composition, negative space"
  else if k == "vibrant" then some "vibrant and energetic, bold colors, dynamic, high saturation"
  else if k == "corporate" then some "professional and polished, business-appropriate, clean"
  else if k == "artistic" then some "artistic and creative, expressive, unique perspective, painterly"
  else if k == "modern" then some "modern and contemporary, sleek design, trendy"
  else if k == "vintage" then some "vintage aesthetic, retro inspired, nostalgic feel, aged"
  else if k == "luxurious" then some "luxurious and premium, high-end, sophisticated, elegant"
  else if k == "organic" then some "organic and natural, earthy, authentic, textured"
  else none

/-- buildOpenSourceImagePrompt (image-generation.ts, lines 406-469).
The `tagline` and `description` parameters are accepted but unused, exactly
as in the source. String truthiness of the brief fields is `≠ ""`. -/
def buildOpenSourceImagePrompt (baseContext : String) (brief : Brief)
    (tagline description : String) : String :=
  let parts : List String := [baseContext]
  let parts := if brief.imageryPreference != "" then
      parts ++ [(imageryStyles brief.imageryPreference).getD brief.imageryPreference]
    else parts
  let parts := if brief.visualStyle != "" then
      parts ++ [(visualDescriptors brief.visualStyle).getD brief.visualStyle]
    else parts
  let colors : List String := []
  let colors := if brief.brandColorPrimary != "" then colors ++ [brief.brandColorPrimary] else colors
  let colors := if brief.brandColorSecondary != "" then colors ++ [brief.brandColorSecondary] else colors
  let parts := if colors.length > 0 then
      parts ++ ["color palette featuring " ++ String.intercalate " and " colors]
    else parts
  let parts := if brief.brandThemes != "" then
      parts ++ ["incorporating visual elements: " ++ brief.brandThemes]
    else parts
  let parts := parts ++ [brief.tone ++ " tone"]
  let parts := parts ++ ["designed to appeal to " ++ brief.audience]
  let parts := parts ++
    ["professional marketing quality, high resolution, visually striking, detailed, sharp focus"]
  String.intercalate ", " parts ++ ". No watermarks, no text, no logos."

/-- A concrete brief used by witness theorems. -/
def briefEx : Brief :=
  { goal := "Launch the fall line"
    tone := "playful"
    audience := "young urban professionals"
    keywords := "autumn, cozy"
    brandColorPrimary := "#FF5733"
    brandColorSecondary := ""
    visualStyle := "vibrant"
    imageryPreference := "photography"
    brandThemes := "leaves"
    templateInstructions := ""
    imageModel := ""
    fontFamily := ""
    tagline := none
    description := none }

/-- Writer-schema output (campaign-workflow.ts, lines 43-59): social posts. -/
structure SocialPosts where
  twitter : String
  linkedin : String
  instagram : String
  facebook : String
deriving DecidableEq, Repr

/-- Writer-schema output: ad copy. -/
structure AdCopy where
  headline : String
  bodyShort : String
  bodyLong : String
  cta : String
deriving DecidableEq, Repr

/-- Writer-schema output object. -/
structure WriterOutput where
  tagline : String
  description : String
  socialMediaPosts : SocialPosts
  adCopy : AdCopy
  emailSubjectLines : List String
deriving DecidableEq, Repr

/-- BrandChecker-schema output (campaign-workflow.ts, lines 165-169). -/
structure BrandCheckerOutput where
  validation : String
  score : Nat
  feedback : String
deriving DecidableEq, Repr

/-- Legal-schema output (campaign-workflow.ts, lines 216-220). -/
structure LegalOutput where
  approved : Bool
  issues : List String
  recommendations : String
deriving DecidableEq, Repr

/-- Email-schema output (campaign-workflow.ts, lines 383-390). -/
structure EmailContent where
  subject : String
  preheader : String
  headline : String
  bodyContent : String
  ctaText : String
  ctaUrl : String
deriving DecidableEq, Repr

/-- Campaign status column: generating, completed or failed. -/
inductive CampaignStatus
  | generating
  | completed
  | failed
deriving DecidableEq, Repr

/-- Campaign database record (the fields the core reads or writes). -/
structure CampaignRec where
  id : Nat
  userId : Nat
  name : String
  templateId : Option Nat
  brief : Brief
  status : CampaignStatus
deriving DecidableEq, Repr

/-- Progress events published on the campaign event emitter. The JS objects
are ad hoc; each constructor keeps the fields a claim can observe, and
`eventType` recovers the `type` discriminator string. The `status` event is
the synthetic initial yield of the subscription entrypoint (part_011); the
workflow itself never publishes it. Durations carried by the `complete`
event are wall-clock data and are not modelled. -/
inductive ProgressEvent
  | agentStart (agent message : String)
  | agentComplete (agent : String)
  | imageGenerated (agent imageUrl : String) (index total : Nat)
  | workflowComplete (message : String)
  | workflowError (message : String)
  | statusSnapshot (status : CampaignStatus)
deriving DecidableEq, Repr

/-- The `type` field of the emitted JS event object. -/
def ProgressEvent.eventType : ProgressEvent → String
  | .agentStart _ _ => "agent_start"
  | .agentComplete _ => "agent_complete"
  | .imageGenerated _ _ _ _ => "image_generated"
  | .workflowComplete _ => "complete"
  | .workflowError _ => "error"
  | .statusSnapshot _ => "status"

/-- Asset content payload, by asset type (campaign-workflow.ts asset
creations). -/
inductive AssetContent
  | text (tagline description : String)
  | social (p : SocialPosts)
  | adCopy (a : AdCopy)
  | subjectLines (subjectLines : List String)
  | image (model provider prompt generatedAt : String)
  | email (subject preheader htmlBody plainTextBody : String)
deriving DecidableEq, Repr

/-- Asset database record. -/
structure AssetRec where
  campaignId : Nat
  type : String
  url : Option String
  content : AssetContent
deriving DecidableEq, Repr

/-- Output payload of a workflow log entry, per agent. The Designer entry
records how many images actually succeeded together with their URLs
(campaign-workflow.ts, line 363). -/
inductive LogOutput
  | writer (o : WriterOutput)
  | brand (o : BrandCheckerOutput)
  | legal (o : LegalOutput)
  | designer (imageCount : Nat) (imageUrls : List String)
  | email (subject preheader : String)
deriving DecidableEq, Repr

/-- Workflow log database record. Duration and payload-snapshot fields that
no claim inspects are omitted (they are wall-clock data and input echoes). -/
structure WorkflowLog where
  campaignId : Nat
  agentName : String
  status : String
  output : LogOutput
deriving DecidableEq, Repr

/-- The mutable state the workflow acts on: the campaign row plus the
campaign-scoped asset rows, log rows, and the ordered list of published
progress events. -/
structure WfState where
  campaign : CampaignRec
  assets : List AssetRec
  logs : List WorkflowLog
  events : List ProgressEvent
deriving DecidableEq, Repr

/-- One database write or event publication performed by the workflow, in
program order. -/
inductive Effect
  | updateBrief (tagline description : String)
  | setStatus (st : CampaignStatus)
  | createAsset (a : AssetRec)
  | createLog (l : WorkflowLog)
  | emit (e : ProgressEvent)
deriving DecidableEq, Repr

def Effect.isSetStatus : Effect → Bool
  | .setStatus _ => true
  | _ => false

def applyEffect (s : WfState) : Effect → WfState
  | .updateBrief t d =>
      { s with campaign := { s.campaign with
          brief := { s.campaign.brief with tagline := some t, description := some d } } }
  | .setStatus st => { s with campaign := { s.campaign with status := st } }
  | .createAsset a => { s with assets := s.assets ++ [a] }
  | .createLog l => { s with logs := s.logs ++ [l] }
  | .emit e => { s with events := s.events ++ [e] }

def applyEffects (l : List Effect) (s : WfState) : WfState :=
  l.foldl applyEffect s

/-- Result returned by the image-generation client. -/
structure ImageGenerationResult where
  base64 : String
  model : String
  provider : String
deriving DecidableEq, Repr

/-- Outcome of one Designer image attempt: the image-generation call throws,
the object-storage upload throws, or the whole attempt succeeds. Any throw
inside the per-image try block is caught and the loop continues
(campaign-workflow.ts, lines 347-351). -/
inductive ImgAttempt
  | genError (msg : String)
  | uploadError (msg : String)
  | ok (result : ImageGenerationResult)
deriving DecidableEq, Repr

def ImgAttempt.succeeded : ImgAttempt → Bool
  | .ok _ => true
  | _ => false

/-- Oracle supplying the results of the external calls of one workflow run:
the four structured-generation calls, the per-image attempt outcomes, the
storage base URL, and the wall-clock values embedded in image records. -/
structure WfOracle where
  writer : Except String WriterOutput
  brandChecker : Except String BrandCheckerOutput
  legal : Except String LegalOutput
  img : Nat → ImgAttempt
  email : Except String EmailContent
  minioBaseUrl : String
  imageTimestamp : Nat → Nat
  generatedAt : Nat → String

/-- Constructor helper for asset rows. -/
def mkAsset (campaignId : Nat) (type : String) (url : Option String)
    (content : AssetContent) : AssetRec :=
  ⟨campaignId, type, url, content⟩

/-- Constructor helper for workflow log rows. -/
def mkLog (campaignId : Nat) (agentName status : String) (output : LogOutput) :
    WorkflowLog :=
  ⟨campaignId, agentName, status, output⟩

/-- The three image prompts built by the Designer stage
(campaign-workflow.ts, lines 277-296). JS `substring` is modelled by
`String.take`. -/
def imagePrompts (brief : Brief) (tagline description : String) : List String :=
  [ buildOpenSourceImagePrompt ("Hero image for campaign: \"" ++ tagline ++ "\"")
      brief tagline description,
    buildOpenSourceImagePrompt ("Marketing visual representing: " ++ description.take 100)
      brief tagline description,
    buildOpenSourceImagePrompt ("Campaign concept image embodying the goal: " ++ brief.goal.take 80)
      brief tagline description ]

/-- Effects of one iteration of the Designer image loop
(campaign-workflow.ts, lines 298-352), together with the URLs pushed onto
`generatedImages`. A caught failure contributes nothing; a success uploads,
records an `image` asset and publishes an `image_generated` event. -/
def designerAttempt (o : WfOracle) (cid : Nat) (prompts : List String) (i : Nat) :
    List Effect × List String :=
  match o.img i with
  | .genError _ => ([], [])
  | .uploadError _ => ([], [])
  | .ok r =>
      let fileName := "public/campaign-" ++ toString cid ++ "-image-" ++ toString (i + 1)
        ++ "-" ++ toString (o.imageTimestamp i) ++ ".png"
      let imageUrl := o.minioBaseUrl ++ "/campaign-assets/" ++ fileName
      let content := AssetContent.image r.model r.provider ((prompts.get? i).getD "") (o.generatedAt i)
      ( [ .createAsset (mkAsset cid "image" (some imageUrl) content),
          .emit (.imageGenerated "DesignerAgent" imageUrl (i + 1) 3) ],
        [imageUrl] )

def designerLoop (o : WfOracle) (cid : Nat) (prompts : List String) :
    List Nat → List Effect × List String
  | [] => ([], [])
  | i :: rest =>
      let this := designerAttempt o cid prompts i
      let next := designerLoop o cid prompts rest
      (this.1 ++ next.1, this.2 ++ next.2)

/-- Effects of the whole Designer stage (campaign-workflow.ts, lines
262-372): start event, the three-image loop, a log entry summarizing how
many images succeeded, and a completion event. -/
def designerEffects (o : WfOracle) (cid : Nat) (brief : Brief) (w : WriterOutput) :
    List Effect :=
  let prompts := imagePrompts brief w.tagline w.description
  let loopRes := designerLoop o cid prompts [0, 1, 2]
  [Effect.emit (.agentStart "DesignerAgent" "Creating stunning visuals for your campaign...")]
    ++ loopRes.1
    ++ [ .createLog (mkLog cid "DesignerAgent" "completed" (.designer loopRes.2.length loopRes.2)),
         .emit (.agentComplete "DesignerAgent") ]

/-- Branded HTML email rendering (campaign-workflow.ts, lines 411-494). -/
def emailHtmlBody (primaryColor secondaryColor fontFamily tagline : String)
    (e : EmailContent) : String :=
  let gradient := "linear-gradient(135deg, " ++ primaryColor ++ " 0%, " ++ secondaryColor ++ " 100%)"
  "\n<!DOCTYPE html>\n<html lang=\"en\">\n<head>\n  <meta charset=\"UTF-8\">\n  <meta name=\"viewport\" content=\"width=device-width, initial-scale=1.0\">\n  <title>"
  ++ e.subject
  ++ "</title>\n  <style>\n    body \x7b\n      margin: 0;\n      padding: 0;\n      font-family: "
  ++ fontFamily
  ++ ";\n      background-color: #f5f5f5;\n    \x7d\n    .email-container \x7b\n      max-width: 600px;\n      margin: 0 auto;\n      background-color: #ffffff;\n    \x7d\n    .header \x7b\n      background: "
  ++ gradient
  ++ ";\n      padding: 40px 20px;\n      text-align: center;\n    \x7d\n    .header h1 \x7b\n      color: #ffffff;\n      margin: 0;\n      font-size: 28px;\n      font-weight: bold;\n    \x7d\n    .content \x7b\n      padding: 40px 30px;\n    \x7d\n    .headline \x7b\n      color: "
  ++ primaryColor
  ++ ";\n      font-size: 24px;\n      font-weight: bold;\n      margin-bottom: 20px;\n    \x7d\n    .body-text \x7b\n      color: #333333;\n      font-size: 16px;\n      line-height: 1.6;\n      margin-bottom: 30px;\n    \x7d\n    .cta-button \x7b\n      display: inline-block;\n      background: "
  ++ gradient
  ++ ";\n      color: #ffffff;\n      text-decoration: none;\n      padding: 15px 40px;\n      border-radius: 8px;\n      font-weight: bold;\n      font-size: 16px;\n    \x7d\n    .footer \x7b\n      background-color: #f9f9f9;\n      padding: 30px;\n      text-align: center;\n      color: #666666;\n      font-size: 14px;\n    \x7d\n  </style>\n</head>\n<body>\n  <div class=\"email-container\">\n    <div class=\"header\">\n      <h1>"
  ++ tagline
  ++ "</h1>\n    </div>\n    <div class=\"content\">\n      <div class=\"headline\">"
  ++ e.headline
  ++ "</div>\n      <div class=\"body-text\">"
  ++ (e.bodyContent.replace "\n" "<br>")
  ++ "</div>\n      <center>\n        <a href=\""
  ++ e.ctaUrl
  ++ "\" class=\"cta-button\">"
  ++ e.ctaText
  ++ "</a>\n      </center>\n    </div>\n    <div class=\"footer\">\n      <p>You\x27re receiving this email because you subscribed to our mailing list.</p>\n      <p><a href=\"#\" style=\"color: "
  ++ primaryColor
  ++ ";\">Unsubscribe</a> | <a href=\"#\" style=\"color: "
  ++ primaryColor
  ++ ";\">Update Preferences</a></p>\n    </div>\n  </div>\n</body>\n</html>\n"

/-- Plain-text email rendering (campaign-workflow.ts, lines 496-508),
before the trailing `.trim()` applied at the storage site. -/
def emailPlainTextBody (tagline : String) (e : EmailContent) : String :=
  "\n" ++ tagline ++ "\n\n" ++ e.headline ++ "\n\n" ++ e.bodyContent ++ "\n\n"
  ++ e.ctaText ++ ": " ++ e.ctaUrl
  ++ "\n\n---\nYou\x27re receiving this email because you subscribed to our mailing list.\nUnsubscribe | Update Preferences\n"

/-- Effect sequence of the try body of runCampaignWorkflow, paired with
whether it ran to the end (`true`) or threw at a stage-fatal generation
call (`false`). Mirrors campaign-workflow.ts lines 34-541: a thrown stage
keeps every effect already performed and jumps to the outer catch. -/
def wfBody (o : WfOracle) (cid : Nat) (brief : Brief) : List Effect × Bool :=
  let startWriter : List Effect :=
    [.emit (.agentStart "WriterAgent" "Analyzing your brief and crafting compelling copy...")]
  match o.writer with
  | .error _ => (startWriter, false)
  | .ok w =>
    let writerEffs := startWriter ++
      [ .updateBrief w.tagline w.description,
        .createLog (mkLog cid "WriterAgent" "completed" (.writer w)),
        .createAsset (mkAsset cid "text" none (.text w.tagline w.description)),
        .createAsset (mkAsset cid "social_media_post" none (.social w.socialMediaPosts)),
        .createAsset (mkAsset cid "ad_copy" none (.adCopy w.adCopy)),
        .createAsset (mkAsset cid "email_subject_lines" none (.subjectLines w.emailSubjectLines)),
        .emit (.agentComplete "WriterAgent"),
        .emit (.agentStart "BrandCheckerAgent" "Validating brand consistency and tone alignment...") ]
    match o.brandChecker with
    | .error _ => (writerEffs, false)
    | .ok bc =>
      let brandEffs := writerEffs ++
        [ .createLog (mkLog cid "BrandCheckerAgent" "completed" (.brand bc)),
          .emit (.agentComplete "BrandCheckerAgent"),
          .emit (.agentStart "LegalAgent" "Reviewing content for legal compliance...") ]
      match o.legal with
      | .error _ => (brandEffs, false)
      | .ok lg =>
        let legalEffs := brandEffs ++
          [ .createLog (mkLog cid "LegalAgent" "completed" (.legal lg)),
            .emit (.agentComplete "LegalAgent") ]
        let afterDesigner := legalEffs ++ designerEffects o cid brief w
        let emailStart := afterDesigner ++
          [.emit (.agentStart "EmailAgent" "Creating branded email templates...")]
        match o.email with
        | .error _ => (emailStart, false)
        | .ok ec =>
          let primaryColor := if brief.brandColorPrimary != "" then brief.brandColorPrimary else "#4F46E5"
          let secondaryColor := if brief.brandColorSecondary != "" then brief.brandColorSecondary else "#7C3AED"
          let fontFamily := if brief.fontFamily != "" then brief.fontFamily else "system-ui, -apple-system, sans-serif"
          let htmlBody := emailHtmlBody primaryColor secondaryColor fontFamily w.tagline ec
          let plain := (emailPlainTextBody w.tagline ec).trim
          ( emailStart ++
            [ .createAsset (mkAsset cid "email" none (.email ec.subject ec.preheader htmlBody plain)),
              .createLog (mkLog cid "EmailAgent" "completed" (.email ec.subject ec.preheader)),
              .emit (.agentComplete "EmailAgent") ],
            true )

/-- Full effect sequence of runCampaignWorkflow on a found campaign: the try
body, then either the success epilogue (status `completed`, then the
`complete` event; lines 543-555) or the catch block (status `failed`, then
the `error` event; lines 556-568). -/
def wfEffects (o : WfOracle) (cid : Nat) (brief : Brief) : List Effect :=
  let body := wfBody o cid brief
  if body.2 then
    body.1 ++ [.setStatus .completed, .emit (.workflowComplete "Campaign generation complete!")]
  else
    body.1 ++ [.setStatus .failed, .emit (.workflowError "An error occurred during campaign generation")]

/-- runCampaignWorkflow (campaign-workflow.ts, lines 21-569) on a state that
holds the campaign row. The campaign-not-found early return performs no
effects and is outside this model. -/
def runCampaignWorkflow (o : WfOracle) (s : WfState) : WfState :=
  applyEffects (wfEffects o s.campaign.id s.campaign.brief) s

/-- Number of assets of a given type in the state. -/
def countAssetsOfType (s : WfState) (t : String) : Nat :=
  (s.assets.filter (fun a => a.type == t)).length

/-- Workflow log entries written by the Designer stage. -/
def designerLogs (s : WfState) : List WorkflowLog :=
  s.logs.filter (fun l => l.agentName == "DesignerAgent")

/-- Number of Designer attempts (indices 0, 1, 2, the loop of
campaign-workflow.ts line 298) whose whole per-image block succeeded. -/
def succCount (o : WfOracle) : Nat :=
  (([0, 1, 2] : List Nat).filter (fun i => (o.img i).succeeded)).length

/-!
Live progress subscription (part_011, lines 49-92). The generator yields a
synthetic initial status event, then serves queued events one by one; after
yielding an event it breaks out of the loop exactly when the event's `type`
is the string `complete`; with an empty queue it awaits the next event.
`subscriptionConsume` maps the totally ordered sequence of events the
workflow will deliver to the events the subscriber yields, paired with
`true` when the loop breaks and `false` when, after the last delivered
event, the subscriber is left awaiting an event that never comes.
-/

def subscriptionConsume : List ProgressEvent → List ProgressEvent × Bool
  | [] => ([], false)
  | e :: rest =>
      if e.eventType == "complete" then ([e], true)
      else
        let r := subscriptionConsume rest
        (e :: r.1, r.2)

/-- campaignProgress subscription body: the initial synthetic status yield
followed by the event-serving loop. -/
def campaignProgress (campaignStatus : CampaignStatus) (incoming : List ProgressEvent) :
    List ProgressEvent × Bool :=
  let r := subscriptionConsume incoming
  (ProgressEvent.statusSnapshot campaignStatus :: r.1, r.2)

/-!
Text regeneration content update (Neural.Net AgenticAI (DEMO)
regenerateTextContent.ts, lines 279-294). Stored text-asset content is a
JSON object, modelled as an association list without duplicate-key
construction; the JS object spread that merges the regenerated tagline is
`objSet`.
-/

/-- JS property lookup on the object: the value at the first binding of the
key, if any. -/
def objGet : List (String × String) → String → Option String
  | [], _ => none
  | p :: rest, k => if p.1 == k then some p.2 else objGet rest k

def objKeys (o : List (String × String)) : List String :=
  o.map (fun p => p.1)

/-- Whether the object has a binding for the key. -/
def hasKey : List (String × String) → String → Bool
  | [], _ => false
  | p :: rest, k => p.1 == k || hasKey rest k

/-- JS object spread update: the binding of `k` is overwritten in place; a
missing key is appended, as fresh keys enumerate last. -/
def objSet (o : List (String × String)) (k v : String) : List (String × String) :=
  if hasKey o k then o.map (fun p => if p.1 == k then (k, v) else p)
  else o ++ [(k, v)]

/-- The newly generated content extracted from the schema-validated
generation result (`generatedContent[resultKey]`): a bare tagline string,
or a complete social-posts object, or a complete ad-copy object. -/
inductive RegenNew
  | tagline (s : String)
  | social (p : SocialPosts)
  | adCopy (a : AdCopy)
deriving DecidableEq, Repr

/-- JSON rendering of a schema-validated social-posts generation output:
exactly the four platform keys. -/
def socialObj (p : SocialPosts) : List (String × String) :=
  [("twitter", p.twitter), ("linkedin", p.linkedin), ("instagram", p.instagram),
    ("facebook", p.facebook)]

/-- JSON rendering of a schema-validated ad-copy generation output. -/
def adCopyObj (a : AdCopy) : List (String × String) :=
  [("headline", a.headline), ("bodyShort", a.bodyShort), ("bodyLong", a.bodyLong),
    ("cta", a.cta)]

/-- The `updatedContent` computation of regenerateTextContent (lines
282-294): tagline regeneration spreads the existing content object and
overwrites only `tagline`; social and ad-copy regeneration replace the
whole content object with the new generation output. -/
def regenUpdatedContent (existingContent : Option (List (String × String))) :
    RegenNew → List (String × String)
  | .tagline s => objSet (existingContent.getD []) "tagline" s
  | .social p => socialObj p
  | .adCopy a => adCopyObj a

/-!
Image generation client (image-generation.ts). Outbound HTTP is an oracle;
`withTimeout` races are modelled by the oracle answering `none` for a call
that hits its timeout. Request-body parameters (negative prompt, size,
guidance, steps) only feed the opaque request body and are not modelled.
-/

/-- Environment configuration read by the client. JS falsiness of a missing
credential is modelled by the empty string. -/
structure EnvConfig where
  huggingfaceApiKey : String
  replicateApiToken : String
deriving DecidableEq, Repr

/-- Provider-agnostic request, the fields the modelled control flow reads. -/
structure ImageGenerationOptions where
  model : String
  prompt : String
deriving DecidableEq, Repr

/-- JS String.prototype.trim, written over the character list so that it
evaluates by kernel reduction. -/
def jsTrim (s : String) : String :=
  String.mk (((s.toList.dropWhile Char.isWhitespace).reverse.dropWhile Char.isWhitespace).reverse)

def listPrefixOf : List Char → List Char → Bool
  | [], _ => true
  | _ :: _, [] => false
  | a :: as, b :: bs => a == b && listPrefixOf as bs

def occursWithin (pat : List Char) : List Char → Bool
  | [] => pat.isEmpty
  | c :: rest => listPrefixOf pat (c :: rest) || occursWithin pat rest

/-- Substring test, JS String.prototype.includes: whether `pat` occurs
contiguously in `s`. -/
def containsSubstr (s pat : String) : Bool :=
  occursWithin pat.toList s.toList

/-- The `modelVersions` table of generateImageReplicate (lines 166-168). -/
def replicateModelVersions (m : String) : Option String :=
  if m == "flux-schnell" then some "black-forest-labs/flux-schnell" else none

/-- The `modelEndpoints` table of generateImageHuggingFace (lines 50-56). -/
def hfModelEndpoints (m : String) : Option String :=
  if m == "sdxl" then some "stabilityai/stable-diffusion-xl-base-1.0"
  else if m == "stable-diffusion-2-1" then some "stabilityai/stable-diffusion-2-1"
  else if m == "stable-diffusion-1-5" then some "runwayml/stable-diffusion-v1-5"
  else if m == "kandinsky-2-2" then some "kandinsky-community/kandinsky-2-2-decoder"
  else if m == "playground-v2" then some "playgroundai/playground-v2.5-1024px-aesthetic"
  else none

def replicateStartTimeoutMs : Nat := 10000
def replicatePollIntervalMs : Nat := 1000
def replicateMaxAttempts : Nat := 60
def replicateDownloadTimeoutMs : Nat := 30000
def hfTimeoutMs : Nat := 60000

/-- Minimum accepted base64 length for a downloaded image payload. -/
def minBase64Length : Nat := 100

def base64Table : List Char :=
  "ABCDEFGHIJKLMNOPQRSTUVWXYZabcdefghijklmnopqrstuvwxyz0123456789+/".toList

def base64Digit (n : Nat) : Char :=
  (base64Table.get? n).getD (Char.ofNat 65)

/-- Standard base64 of a byte sequence (Buffer.prototype.toString with the
base64 encoding). -/
def base64Encode : List Nat → String
  | [] => ""
  | [b0] =>
      String.mk [base64Digit (b0 / 4), base64Digit (b0 % 4 * 16), Char.ofNat 61, Char.ofNat 61]
  | [b0, b1] =>
      String.mk [base64Digit (b0 / 4), base64Digit (b0 % 4 * 16 + b1 / 16),
        base64Digit (b1 % 16 * 4), Char.ofNat 61]
  | b0 :: b1 :: b2 :: rest =>
      String.mk [base64Digit (b0 / 4), base64Digit (b0 % 4 * 16 + b1 / 16),
        base64Digit (b1 % 16 * 4 + b2 / 64), base64Digit (b2 % 64)]
      ++ base64Encode rest

/-- Response to the Replicate job-creation POST; `none` means the 10-second
race rejected first. -/
structure ReplicateStartResp where
  ok : Bool
  statusCode : Nat
  id : Option String
deriving DecidableEq, Repr

/-- Response to the status GET on one polling attempt. -/
structure ReplicatePollResp where
  ok : Bool
  status : String
  output : Option (List String)
  error : Option String
deriving DecidableEq, Repr

/-- Response to the image download; `none` means the 30-second race
rejected first. -/
structure ReplicateDownloadResp where
  ok : Bool
  bytes : List Nat
deriving DecidableEq, Repr

/-- Oracle for one generateImageReplicate run. -/
structure ReplicateOracle where
  start : Option ReplicateStartResp
  poll : Nat → ReplicatePollResp
  download : Option ReplicateDownloadResp

/-- Result of a poll-loop run: the outcome plus how many status GETs and
how many downloads were issued. -/
structure PollRun where
  result : Except String ImageGenerationResult
  polls : Nat
  downloads : Nat
deriving Repr

/-- Download-and-validate path taken when a poll reports `succeeded`
(image-generation.ts, lines 253-304). -/
def replicateSucceededDownload (o : ReplicateOracle) (model : String)
    (output : Option (List String)) : Except String ImageGenerationResult × Nat :=
  match output with
  | none =>
      (.error ("No image was generated by " ++ model ++ ". Please try again or select a different model."), 0)
  | some urls =>
    if urls.length == 0 then
      (.error ("No image was generated by " ++ model ++ ". Please try again or select a different model."), 0)
    else
      let imageUrl := urls.headD ""
      if imageUrl == "" then
        (.error ("Invalid image URL received from " ++ model ++ ". Please try again."), 0)
      else
        match o.download with
        | none => (.error ("Timed out downloading image from " ++ model ++ ". Please try again."), 1)
        | some d =>
          if !d.ok then (.error "Failed to download generated image. Please try again.", 1)
          else if d.bytes.length == 0 then
            (.error ("No image data received from " ++ model ++ ". Please try again."), 1)
          else
            let base64 := base64Encode d.bytes
            if base64 == "" || base64.length < minBase64Length then
              (.error ("Invalid image data from " ++ model ++ ". Please try again."), 1)
            else (.ok ⟨base64, model, "replicate"⟩, 1)

/-- The polling loop of generateImageReplicate (lines 230-320): up to
`fuel` further attempts, `attempts` GETs already made. Each iteration
sleeps one second, issues a status GET, and either terminates (status-check
failure, `succeeded`, `failed`, `canceled`) or retries; exhausting the
attempt budget throws the 60-second timeout error. -/
def replicatePollLoop (o : ReplicateOracle) (model : String) :
    Nat → Nat → PollRun
  | _, 0 =>
      ⟨.error ("Image generation with " ++ model
        ++ " timed out after 60 seconds. Please try again or select a different model."), 0, 0⟩
  | attempts, fuel + 1 =>
      let st := o.poll attempts
      if !st.ok then
        ⟨.error "Failed to check generation status. Please try again.", 1, 0⟩
      else if st.status == "succeeded" then
        let dl := replicateSucceededDownload o model st.output
        ⟨dl.1, 1, dl.2⟩
      else if st.status == "failed" then
        let errorDetail := st.error.getD "Unknown error"
        ⟨.error ("Image generation failed: " ++ errorDetail
          ++ ". Please try again or select a different model."), 1, 0⟩
      else if st.status == "canceled" then
        ⟨.error "Image generation was canceled. Please try again.", 1, 0⟩
      else
        let r := replicatePollLoop o model (attempts + 1) fuel
        ⟨r.result, r.polls + 1, r.downloads⟩

/-- The catch wrapper of generateImageReplicate (lines 321-332): a message
that already names the model or mentions a timeout is rethrown as is,
anything else is wrapped with context. -/
def replicateWrapError (model msg : String) : String :=
  if containsSubstr msg model || containsSubstr msg "timed out" then msg
  else
    let m := if msg == "" then "Unknown error" else msg
    "Failed to generate image with " ++ model ++ ": " ++ m
      ++ ". Please try again or select a different model."

/-- Whether a poll response makes the loop terminate on this iteration:
a failed status check, or one of the three terminal job states. -/
def pollDeciding (p : ReplicatePollResp) : Bool :=
  !p.ok || p.status == "succeeded" || p.status == "failed" || p.status == "canceled"

/-- The outcome the loop produces at a deciding poll (result and number of
downloads): status-check failure, the succeeded download path, the failed
branch surfacing the provider error detail, or the canceled branch. -/
def pollOutcome (o : ReplicateOracle) (model : String) (p : ReplicatePollResp) :
    Except String ImageGenerationResult × Nat :=
  if !p.ok then (.error "Failed to check generation status. Please try again.", 0)
  else if p.status == "succeeded" then replicateSucceededDownload o model p.output
  else if p.status == "failed" then
    (.error ("Image generation failed: " ++ p.error.getD "Unknown error"
      ++ ". Please try again or select a different model."), 0)
  else
    (.error "Image generation was canceled. Please try again.", 0)

/-- The try body of generateImageReplicate (lines 182-320): job creation,
then the polling loop. -/
def generateImageReplicateTryBody (o : ReplicateOracle) (model : String) :
    Except String ImageGenerationResult × Nat :=
  match o.start with
  | none =>
      (.error ("Failed to start image generation with " ++ model ++ ". Please try again."), 1)
  | some sr =>
    if !sr.ok then
      let userMessage :=
        if sr.statusCode == 401 || sr.statusCode == 403 then
          "Authentication error with Replicate. Please contact support."
        else if sr.statusCode == 429 then
          "Rate limit exceeded. Please wait a moment before trying again."
        else if sr.statusCode == 402 then
          "Replicate account billing issue. Please contact support."
        else "Replicate API error (" ++ toString sr.statusCode ++ ")"
      (.error userMessage, 1)
    else
      match sr.id with
      | none => (.error ("Failed to start prediction for " ++ model ++ ". Please try again."), 1)
      | some _ =>
        let r := replicatePollLoop o model 0 replicateMaxAttempts
        (r.result, 1 + r.polls + r.downloads)

/-- generateImageReplicate (lines 163-333). The second component counts
outbound HTTP requests issued. -/
def generateImageReplicate (env : EnvConfig) (o : ReplicateOracle) (model : String) :
    Except String ImageGenerationResult × Nat :=
  match replicateModelVersions model with
  | none =>
      (.error ("Model " ++ model ++ " is not supported by Replicate. Please select a different model."), 0)
  | some _ =>
    if env.replicateApiToken == "" then
      (.error "Replicate API key is not configured. Please contact support or try a different model.", 0)
    else
      let r := generateImageReplicateTryBody o model
      (match r.1 with
        | .ok v => .ok v
        | .error m => .error (replicateWrapError model m), r.2)

/-- Response to the single HuggingFace inference POST; `none` means the
60-second race rejected first. -/
structure HFResp where
  ok : Bool
  statusCode : Nat
  errorText : String
  bytes : List Nat
deriving DecidableEq, Repr

/-- Oracle for one generateImageHuggingFace run. -/
structure HFOracle where
  resp : Option HFResp

/-- The try body of generateImageHuggingFace (lines 70-142). -/
def generateImageHuggingFaceTryBody (o : HFOracle) (model : String) :
    Except String ImageGenerationResult × Nat :=
  match o.resp with
  | none =>
      (.error ("Image generation with " ++ model
        ++ " timed out after 60 seconds. Please try again or select a faster model like FLUX Schnell."), 1)
  | some r =>
    if !r.ok then
      let userMessage :=
        if r.statusCode == 503 then
          "The " ++ model ++ " model is currently loading or unavailable. Please wait a moment and try again, or select a different model."
        else if r.statusCode == 401 || r.statusCode == 403 then
          "Authentication error with HuggingFace. Please contact support."
        else if r.statusCode == 429 then
          "Rate limit exceeded. Please wait a moment before trying again."
        else if containsSubstr r.errorText "Model" && containsSubstr r.errorText "is currently loading" then
          "The " ++ model ++ " model is warming up. Please try again in a moment."
        else "HuggingFace API error (" ++ toString r.statusCode ++ ")"
      (.error userMessage, 1)
    else if r.bytes.length == 0 then
      (.error ("No image data received from " ++ model ++ ". Please try again or select a different model."), 1)
    else
      let base64 := base64Encode r.bytes
      if base64 == "" || base64.length < minBase64Length then
        (.error ("Invalid image data received from " ++ model ++ ". Please try again."), 1)
      else (.ok ⟨base64, model, "huggingface"⟩, 1)

/-- The catch wrapper of generateImageHuggingFace (lines 143-154). -/
def hfWrapError (model msg : String) : String :=
  if containsSubstr msg model || containsSubstr msg "timed out" then msg
  else
    let m := if msg == "" then "Unknown error" else msg
    "Failed to generate image with " ++ model ++ ": " ++ m
      ++ ". Please try again or select a different model."

/-- generateImageHuggingFace (lines 47-155). -/
def generateImageHuggingFace (env : EnvConfig) (o : HFOracle) (model : String) :
    Except String ImageGenerationResult × Nat :=
  match hfModelEndpoints model with
  | none =>
      (.error ("Model " ++ model ++ " is not supported by HuggingFace. Please select a different model."), 0)
  | some _ =>
    if env.huggingfaceApiKey == "" then
      (.error "HuggingFace API key is not configured. Please contact support or try a different model.", 0)
    else
      let r := generateImageHuggingFaceTryBody o model
      (match r.1 with
        | .ok v => .ok v
        | .error m => .error (hfWrapError model m), r.2)

def replicateModels : List String := ["flux-schnell"]

def huggingfaceModels : List String :=
  ["sdxl", "stable-diffusion-2-1", "stable-diffusion-1-5", "kandinsky-2-2", "playground-v2"]

/-- generateOpenSourceImage (lines 358-400), the image-generation entry
point: validate the prompt, then dispatch by model identifier; the outer
catch only logs and rethrows. The second component counts outbound HTTP
requests issued by the whole call. -/
def generateOpenSourceImage (env : EnvConfig) (hf : HFOracle) (rep : ReplicateOracle)
    (options : ImageGenerationOptions) : Except String ImageGenerationResult × Nat :=
  if jsTrim options.prompt == "" then
    (.error "Image prompt cannot be empty. Please provide a description.", 0)
  else if replicateModels.contains options.model then
    generateImageReplicate env rep options.model
  else if huggingfaceModels.contains options.model then
    generateImageHuggingFace env hf options.model
  else
    (.error ("Unknown model: " ++ options.model ++ ". Please select a supported model from the dropdown."), 0)

/-!
Campaign creation entrypoint (part_003). Authentication is outside the
model: the embedding starts after the token is verified. The database
insert is modelled by returning the created campaign row.
-/

/-- Stored campaign template row. -/
structure CampaignTemplate where
  id : Nat
  promptInstructions : String
deriving DecidableEq, Repr

/-- Validated createCampaign input (part_003, lines 10-26), after the zod
schema. -/
structure CreateCampaignInput where
  name : String
  goal : String
  tone : String
  audience : String
  keywords : Option String
  brandColorPrimary : Option String
  brandColorSecondary : Option String
  visualStyle : Option String
  imageryPreference : Option String
  brandThemes : Option String
  templateId : Option Nat
deriving DecidableEq, Repr

/-- createCampaign (part_003, lines 27-81): look up the template only when
`templateId` is JS-truthy (present and nonzero), then insert the campaign
in `generating` status with a brief whose optional fields default to the
empty string and whose templateInstructions fall back to the empty string
when no template row was found. -/
def createCampaign (templates : List CampaignTemplate) (nextId userId : Nat)
    (input : CreateCampaignInput) : CampaignRec :=
  let template : Option CampaignTemplate :=
    match input.templateId with
    | none => none
    | some tid => if tid != 0 then templates.find? (fun t => t.id == tid) else none
  let brief : Brief :=
    { goal := input.goal
      tone := input.tone
      audience := input.audience
      keywords := (input.keywords).getD ""
      brandColorPrimary := (input.brandColorPrimary).getD ""
      brandColorSecondary := (input.brandColorSecondary).getD ""
      visualStyle := (input.visualStyle).getD ""
      imageryPreference := (input.imageryPreference).getD ""
      brandThemes := (input.brandThemes).getD ""
      templateInstructions := (template.map (fun t => t.promptInstructions)).getD ""
      imageModel := ""
      fontFamily := ""
      tagline := none
      description := none }
  { id := nextId
    userId := userId
    name := input.name
    templateId := input.templateId
    brief := brief
    status := .generating }

/-!
Concrete fixtures used by witness and counterexample theorems.
-/

def writerOutEx : WriterOutput :=
  ⟨"Fall Into Cozy", "A warm campaign for the fall line.",
    ⟨"tweet text", "linkedin text", "instagram text", "facebook text"⟩,
    ⟨"Headline", "short body", "long body", "Shop Now"⟩,
    ["Subject one", "Subject two", "Subject three"]⟩

def brandOutEx : BrandCheckerOutput := ⟨"passed", 92, "On brand."⟩

def legalOutEx : LegalOutput := ⟨true, [], "No changes needed."⟩

def emailOutEx : EmailContent :=
  ⟨"Fall sale inside", "Cozy picks for you", "Fall Into Cozy",
    "Our fall line is here.", "Shop Now", "https://example.com"⟩

def imgResultEx : ImageGenerationResult := ⟨"QUJDREVGRw==", "sdxl", "huggingface"⟩

/-- Oracle for a run in which every external call succeeds. -/
def oracleAllOk : WfOracle :=
  { writer := .ok writerOutEx
    brandChecker := .ok brandOutEx
    legal := .ok legalOutEx
    img := fun _ => .ok imgResultEx
    email := .ok emailOutEx
    minioBaseUrl := "http://minio.example"
    imageTimestamp := fun _ => 1700000000000
    generatedAt := fun _ => "2024-01-01T00:00:00.000Z" }

/-- Oracle for a run in which only the first Designer attempt succeeds. -/
def oracleOneImage : WfOracle :=
  { oracleAllOk with
      img := fun i => if i == 0 then .ok imgResultEx else .genError "provider unavailable" }

/-- Oracle for a run in which the Writer generation call throws. -/
def oracleWriterFails : WfOracle :=
  { oracleAllOk with writer := .error "model call failed" }

def campaignEx : CampaignRec := ⟨1, 7, "Fall Launch", none, briefEx, .generating⟩

def stateEx : WfState := ⟨campaignEx, [], [], []⟩

def envEx : EnvConfig := ⟨"hf-key", "rep-token"⟩

/-- Concrete stored template and creation input for the C10 witness. -/
def templatesEx : List CampaignTemplate := [⟨5, "Use warm colors"⟩]

def createInputEx : CreateCampaignInput :=
  ⟨"Fall Launch", "Launch the fall line", "playful", "young urban professionals",
    none, none, none, none, none, none, some 9⟩

/-- Replicate oracle whose polls always report a still-running job. -/
def replicateNeverDone : ReplicateOracle :=
  { start := some ⟨true, 201, some "pred-1"⟩
    poll := fun _ => ⟨true, "processing", none, none⟩
    download := none }

/-- The asset row created by an effect, if any. -/
def Effect.assetOf : Effect → Option AssetRec
  | .createAsset a => some a
  | _ => none

/-- The log row created by an effect, if any. -/
def Effect.logOf : Effect → Option WorkflowLog
  | .createLog l => some l
  | _ => none

/-- The progress event published by an effect, if any. -/
def Effect.eventOf : Effect → Option ProgressEvent
  | .emit e => some e
  | _ => none

/-- Status-column value after one effect. -/
def statusUpd (st : CampaignStatus) : Effect → CampaignStatus
  | .setStatus x => x
  | _ => st

/-- Status-column value after a sequence of effects. -/
def statusAfter (l : List Effect) (st : CampaignStatus) : CampaignStatus :=
  l.foldl statusUpd st

/-- Number of image-typed assets in a list of asset rows. -/
def countImages (l : List AssetRec) : Nat :=
  (l.filter (fun a => a.type == "image")).length

/-!
General lemmas about effect application.
-/

theorem applyEffects_nil (s : WfState) : applyEffects [] s = s := rfl

theorem applyEffects_cons (e : Effect) (l : List Effect) (s : WfState) :
    applyEffects (e :: l) s = applyEffects l (applyEffect s e) := rfl

theorem applyEffects_append (l₁ l₂ : List Effect) (s : WfState) :
    applyEffects (l₁ ++ l₂) s = applyEffects l₂ (applyEffects l₁ s) := by
  simp [applyEffects, List.foldl_append]

theorem applyEffect_assets (s : WfState) (e : Effect) :
    (applyEffect s e).assets = s.assets ++ e.assetOf.toList := by
  cases e <;> simp [applyEffect, Effect.assetOf]

theorem applyEffects_assets (l : List Effect) (s : WfState) :
    (applyEffects l s).assets = s.assets ++ l.filterMap Effect.assetOf := by
  induction l generalizing s with
  | nil => simp [applyEffects]
  | cons e l ih =>
      rw [applyEffects_cons, ih]
      cases e <;> simp [applyEffect, Effect.assetOf]

theorem applyEffects_logs (l : List Effect) (s : WfState) :
    (applyEffects l s).logs = s.logs ++ l.filterMap Effect.logOf := by
  induction l generalizing s with
  | nil => simp [applyEffects]
  | cons e l ih =>
      rw [applyEffects_cons, ih]
      cases e <;> simp [applyEffect, Effect.logOf]

theorem applyEffects_events (l : List Effect) (s : WfState) :
    (applyEffects l s).events = s.events ++ l.filterMap Effect.eventOf := by
  induction l generalizing s with
  | nil => simp [applyEffects]
  | cons e l ih =>
      rw [applyEffects_cons, ih]
      cases e <;> simp [applyEffect, Effect.eventOf]

theorem statusAfter_nil (st : CampaignStatus) : statusAfter [] st = st := rfl

theorem statusAfter_cons (e : Effect) (l : List Effect) (st : CampaignStatus) :
    statusAfter (e :: l) st = statusAfter l (statusUpd st e) := rfl

theorem statusAfter_append (l₁ l₂ : List Effect) (st : CampaignStatus) :
    statusAfter (l₁ ++ l₂) st = statusAfter l₂ (statusAfter l₁ st) := by
  simp [statusAfter, List.foldl_append]

theorem applyEffects_status (l : List Effect) (s : WfState) :
    (applyEffects l s).campaign.status = statusAfter l s.campaign.status := by
  induction l generalizing s with
  | nil => simp [applyEffects, statusAfter]
  | cons e l ih =>
      rw [applyEffects_cons, statusAfter_cons, ih]
      cases e <;> simp [applyEffect, statusUpd]

theorem statusAfter_no_set (l : List Effect) (st : CampaignStatus)
    (h : ∀ e ∈ l, e.isSetStatus = false) : statusAfter l st = st := by
  induction l generalizing st with
  | nil => rfl
  | cons e l ih =>
      rw [statusAfter_cons]
      have he := h e (List.mem_cons_self e l)
      have hrest := fun x hx => h x (List.mem_cons_of_mem e hx)
      cases e <;> simp [statusUpd, ih _ hrest]
      · exact absurd he (by simp [Effect.isSetStatus])

/-!
Designer-loop lemmas.
-/

theorem designerAttempt_not_succeeded (o : WfOracle) (cid : Nat) (prompts : List String)
    (i : Nat) (h : (o.img i).succeeded = false) :
    designerAttempt o cid prompts i = ([], []) := by
  cases himg : o.img i <;> simp [designerAttempt, himg]
  rw [himg] at h
  simp [ImgAttempt.succeeded] at h

theorem designerAttempt_ok (o : WfOracle) (cid : Nat) (prompts : List String)
    (i : Nat) (r : ImageGenerationResult) (h : o.img i = .ok r) :
    designerAttempt o cid prompts i =
      ( [ .createAsset (mkAsset cid "image"
            (some (o.minioBaseUrl ++ "/campaign-assets/" ++ ("public/campaign-" ++ toString cid
              ++ "-image-" ++ toString (i + 1) ++ "-" ++ toString (o.imageTimestamp i) ++ ".png")))
            (.image r.model r.provider ((prompts.get? i).getD "") (o.generatedAt i))),
          .emit (.imageGenerated "DesignerAgent"
            (o.minioBaseUrl ++ "/campaign-assets/" ++ ("public/campaign-" ++ toString cid
              ++ "-image-" ++ toString (i + 1) ++ "-" ++ toString (o.imageTimestamp i) ++ ".png"))
            (i + 1) 3) ],
        [o.minioBaseUrl ++ "/campaign-assets/" ++ ("public/campaign-" ++ toString cid
          ++ "-image-" ++ toString (i + 1) ++ "-" ++ toString (o.imageTimestamp i) ++ ".png")] ) := by
  simp [designerAttempt, h]

theorem isSetStatus_updateBrief (t d : String) : (Effect.updateBrief t d).isSetStatus = false := rfl

theorem isSetStatus_createAsset (a : AssetRec) : (Effect.createAsset a).isSetStatus = false := rfl

theorem isSetStatus_createLog (l : WorkflowLog) : (Effect.createLog l).isSetStatus = false := rfl

theorem isSetStatus_emit (e : ProgressEvent) : (Effect.emit e).isSetStatus = false := rfl

theorem no_set_of_all {l : List Effect}
    (h : (l.all fun e => !e.isSetStatus) = true) : ∀ e ∈ l, e.isSetStatus = false := by
  intro e he
  have := List.all_eq_true.mp h e he
  simpa using this

theorem designerLoop_all_no_set (o : WfOracle) (cid : Nat) (prompts : List String)
    (idxs : List Nat) :
    ((designerLoop o cid prompts idxs).1.all fun e => !e.isSetStatus) = true := by
  induction idxs with
  | nil => simp [designerLoop]
  | cons i rest ih =>
      simp only [designerLoop, List.all_append, ih, Bool.and_true]
      cases himg : o.img i <;> simp [designerAttempt, himg, Effect.isSetStatus]

theorem designerLoop_no_logs (o : WfOracle) (cid : Nat) (prompts : List String)
    (idxs : List Nat) :
    (designerLoop o cid prompts idxs).1.filterMap Effect.logOf = [] := by
  induction idxs with
  | nil => simp [designerLoop]
  | cons i rest ih =>
      simp only [designerLoop, List.filterMap_append, ih, List.append_nil]
      cases himg : o.img i <;> simp [designerAttempt, himg, Effect.logOf]

theorem designerLoop_countImages (o : WfOracle) (cid : Nat) (prompts : List String)
    (idxs : List Nat) :
    countImages ((designerLoop o cid prompts idxs).1.filterMap Effect.assetOf)
      = (idxs.filter (fun i => (o.img i).succeeded)).length := by
  induction idxs with
  | nil => simp [designerLoop, countImages]
  | cons i rest ih =>
      simp only [designerLoop, List.filterMap_append, countImages, List.filter_append,
        List.length_append, List.filter_cons]
      cases himg : o.img i <;>
        simp [designerAttempt, himg, Effect.assetOf, ImgAttempt.succeeded, mkAsset,
          countImages] at ih ⊢ <;> omega

theorem designerLoop_urls_length (o : WfOracle) (cid : Nat) (prompts : List String)
    (idxs : List Nat) :
    (designerLoop o cid prompts idxs).2.length
      = (idxs.filter (fun i => (o.img i).succeeded)).length := by
  induction idxs with
  | nil => simp [designerLoop]
  | cons i rest ih =>
      simp only [designerLoop, List.length_append, List.filter_cons]
      cases himg : o.img i <;>
        simp [designerAttempt, himg, ImgAttempt.succeeded, ih] <;> omega

theorem designerEffects_all_no_set (o : WfOracle) (cid : Nat) (brief : Brief)
    (w : WriterOutput) :
    ((designerEffects o cid brief w).all fun e => !e.isSetStatus) = true := by
  simp only [designerEffects, List.all_append, designerLoop_all_no_set, List.all_cons,
    List.all_nil, isSetStatus_emit, isSetStatus_createLog, Bool.not_false, Bool.and_true,
    Bool.true_and, Bool.and_self]

theorem countImages_append (l₁ l₂ : List AssetRec) :
    countImages (l₁ ++ l₂) = countImages l₁ + countImages l₂ := by
  simp [countImages, List.filter_append]

theorem designerEffects_logs (o : WfOracle) (cid : Nat) (brief : Brief) (w : WriterOutput) :
    (designerEffects o cid brief w).filterMap Effect.logOf
      = [mkLog cid "DesignerAgent" "completed"
          (.designer
            (designerLoop o cid (imagePrompts brief w.tagline w.description) [0, 1, 2]).2.length
            (designerLoop o cid (imagePrompts brief w.tagline w.description) [0, 1, 2]).2)] := by
  simp [designerEffects, List.filterMap_append, designerLoop_no_logs, Effect.logOf]

theorem designerEffects_countImages (o : WfOracle) (cid : Nat) (brief : Brief)
    (w : WriterOutput) :
    countImages ((designerEffects o cid brief w).filterMap Effect.assetOf)
      = (([0, 1, 2] : List Nat).filter (fun i => (o.img i).succeeded)).length := by
  have h := designerLoop_countImages o cid (imagePrompts brief w.tagline w.description) [0, 1, 2]
  simp only [countImages] at h
  simp [designerEffects, List.filterMap_append, countImages_append, countImages,
    Effect.assetOf, h]

/-!
Workflow-body lemmas.
-/

theorem wfBody_all_no_set (o : WfOracle) (cid : Nat) (brief : Brief) :
    ((wfBody o cid brief).1.all fun e => !e.isSetStatus) = true := by
  cases hw : o.writer with
  | error m => simp [wfBody, hw, isSetStatus_emit]
  | ok w =>
    cases hb : o.brandChecker with
    | error m =>
        simp [wfBody, hw, hb, List.all_append, isSetStatus_emit, isSetStatus_createLog,
          isSetStatus_createAsset, isSetStatus_updateBrief]
    | ok bc =>
      cases hl : o.legal with
      | error m =>
          simp [wfBody, hw, hb, hl, List.all_append, isSetStatus_emit, isSetStatus_createLog,
            isSetStatus_createAsset, isSetStatus_updateBrief]
      | ok lg =>
        cases he : o.email with
        | error m =>
            simp [wfBody, hw, hb, hl, he, List.all_append, isSetStatus_emit,
              isSetStatus_createLog, isSetStatus_createAsset, isSetStatus_updateBrief,
              designerEffects_all_no_set]
        | ok ec =>
            simp [wfBody, hw, hb, hl, he, List.all_append, isSetStatus_emit,
              isSetStatus_createLog, isSetStatus_createAsset, isSetStatus_updateBrief,
              designerEffects_all_no_set]

theorem wfEffects_length (o : WfOracle) (cid : Nat) (brief : Brief) :
    (wfEffects o cid brief).length = (wfBody o cid brief).1.length + 2 := by
  cases h : (wfBody o cid brief).2 <;> simp [wfEffects, h]

theorem wfEffects_take (o : WfOracle) (cid : Nat) (brief : Brief) (n : Nat)
    (hn : n ≤ (wfBody o cid brief).1.length) :
    (wfEffects o cid brief).take n = (wfBody o cid brief).1.take n := by
  cases h : (wfBody o cid brief).2 <;>
    simp [wfEffects, h, List.take_append_of_le_length hn]

theorem wfBody_flag_all_ok (o : WfOracle) (cid : Nat) (brief : Brief)
    (w : WriterOutput) (hw : o.writer = .ok w)
    (bc : BrandCheckerOutput) (hb : o.brandChecker = .ok bc)
    (lg : LegalOutput) (hl : o.legal = .ok lg)
    (ec : EmailContent) (he : o.email = .ok ec) :
    (wfBody o cid brief).2 = true := by
  simp [wfBody, hw, hb, hl, he]

/-!
Claim theorems for the Campaign Workflow Orchestrator.
-/

/-- C1: in a campaign run in which exactly one of the three Designer image
attempts succeeds (every per-image failure being caught without aborting
the stage) while the stage-fatal generation calls succeed, the campaign
still reaches `completed` status, exactly one `image` asset exists for the
campaign, and the Designer log entry records one success. -/
theorem designer_partial_success (o : WfOracle) (s : WfState)
    (hassets : s.assets = []) (hlogs : s.logs = [])
    (w : WriterOutput) (hw : o.writer = .ok w)
    (bc : BrandCheckerOutput) (hb : o.brandChecker = .ok bc)
    (lg : LegalOutput) (hl : o.legal = .ok lg)
    (ec : EmailContent) (he : o.email = .ok ec)
    (hone : succCount o = 1) :
    (runCampaignWorkflow o s).campaign.status = .completed ∧
    countAssetsOfType (runCampaignWorkflow o s) "image" = 1 ∧
    ∃ url, designerLogs (runCampaignWorkflow o s)
      = [mkLog s.campaign.id "DesignerAgent" "completed" (.designer 1 [url])] := by
  have hflag := wfBody_flag_all_ok o s.campaign.id s.campaign.brief w hw bc hb lg hl ec he
  refine ⟨?_, ?_, ?_⟩
  · rw [runCampaignWorkflow, applyEffects_status]
    simp [wfEffects, hflag, statusAfter_append, statusAfter_cons, statusAfter_nil, statusUpd]
  · have hcnt := designerEffects_countImages o s.campaign.id s.campaign.brief w
    rw [runCampaignWorkflow]
    show countImages (applyEffects (wfEffects o s.campaign.id s.campaign.brief) s).assets = 1
    rw [applyEffects_assets, hassets]
    simp only [wfEffects, hflag, wfBody, hw, hb, hl, he, if_true, List.nil_append,
      List.filterMap_append, countImages_append, hcnt]
    rw [succCount] at hone
    simp [countImages, Effect.assetOf, mkAsset, hone]
  · have hurls : (designerLoop o s.campaign.id
        (imagePrompts s.campaign.brief w.tagline w.description) [0, 1, 2]).2.length = 1 := by
      rw [designerLoop_urls_length]
      exact hone
    obtain ⟨url, hurl⟩ := List.length_eq_one.mp hurls
    refine ⟨url, ?_⟩
    rw [runCampaignWorkflow]
    show List.filter _ (applyEffects (wfEffects o s.campaign.id s.campaign.brief) s).logs = _
    rw [applyEffects_logs, hlogs]
    simp only [wfEffects, hflag, wfBody, hw, hb, hl, he, if_true, List.nil_append,
      List.filterMap_append, designerEffects_logs, hurl]
    simp [Effect.logOf, mkLog]

/-- C2: if the Writer stage generation call throws, the campaign status
becomes `failed` and no social-post, ad-copy, subject-lines, image or
email asset is created for the campaign. -/
theorem writer_failure_no_assets (o : WfOracle) (s : WfState)
    (hassets : s.assets = []) (msg : String) (hw : o.writer = .error msg) :
    (runCampaignWorkflow o s).campaign.status = .failed ∧
    (runCampaignWorkflow o s).assets = [] ∧
    countAssetsOfType (runCampaignWorkflow o s) "social_media_post" = 0 ∧
    countAssetsOfType (runCampaignWorkflow o s) "ad_copy" = 0 ∧
    countAssetsOfType (runCampaignWorkflow o s) "email_subject_lines" = 0 ∧
    countAssetsOfType (runCampaignWorkflow o s) "image" = 0 ∧
    countAssetsOfType (runCampaignWorkflow o s) "email" = 0 := by
  have hflag : (wfBody o s.campaign.id s.campaign.brief).2 = false := by
    simp [wfBody, hw]
  have hnil : (runCampaignWorkflow o s).assets = [] := by
    rw [runCampaignWorkflow, applyEffects_assets, hassets]
    simp [wfEffects, hflag, wfBody, hw, Effect.assetOf]
  refine ⟨?_, hnil, ?_, ?_, ?_, ?_, ?_⟩ <;>
    simp [runCampaignWorkflow, applyEffects_status, wfEffects, hflag, wfBody, hw,
      statusAfter_append, statusAfter_cons, statusAfter_nil, statusUpd, countAssetsOfType] at hnil ⊢ <;>
    simp [runCampaignWorkflow, countAssetsOfType, hnil]

/-- C3: the campaign status is terminal (completed or failed) exactly when
the workflow function has finished: the final state of the run carries a
terminal status, and the state after any proper prefix of the effect
sequence that precedes the single final status write still carries the
initial `generating` status. -/
theorem orchestrator_terminal_iff_finished (o : WfOracle) (s : WfState)
    (hgen : s.campaign.status = .generating) :
    ((runCampaignWorkflow o s).campaign.status = .completed ∨
      (runCampaignWorkflow o s).campaign.status = .failed) ∧
    (∀ n, n + 2 ≤ (wfEffects o s.campaign.id s.campaign.brief).length →
      (applyEffects ((wfEffects o s.campaign.id s.campaign.brief).take n) s).campaign.status
        = .generating) := by
  constructor
  · rw [runCampaignWorkflow, applyEffects_status]
    cases h : (wfBody o s.campaign.id s.campaign.brief).2 <;>
      simp [wfEffects, h, statusAfter_append, statusAfter_cons, statusAfter_nil, statusUpd]
  · intro n hn
    have hlen := wfEffects_length o s.campaign.id s.campaign.brief
    have hn' : n ≤ (wfBody o s.campaign.id s.campaign.brief).1.length := by omega
    rw [wfEffects_take o s.campaign.id s.campaign.brief n hn', applyEffects_status, hgen]
    apply statusAfter_no_set
    intro e he
    exact no_set_of_all (wfBody_all_no_set o s.campaign.id s.campaign.brief) e
      (List.take_subset n _ he)

/-- Witness for C1: a run in which only the first Designer attempt
succeeds completes with exactly one image asset. -/
theorem designer_partial_success_witness :
    (runCampaignWorkflow oracleOneImage stateEx).campaign.status = .completed ∧
    countAssetsOfType (runCampaignWorkflow oracleOneImage stateEx) "image" = 1 := by
  have h := designer_partial_success oracleOneImage stateEx rfl rfl writerOutEx rfl
    brandOutEx rfl legalOutEx rfl emailOutEx rfl (by decide)
  exact ⟨h.1, h.2.1⟩

/-- Witness for C2: a run whose Writer call throws ends failed with no
assets. -/
theorem writer_failure_no_assets_witness :
    (runCampaignWorkflow oracleWriterFails stateEx).campaign.status = .failed ∧
    (runCampaignWorkflow oracleWriterFails stateEx).assets = [] := by
  have h := writer_failure_no_assets oracleWriterFails stateEx rfl "model call failed" rfl
  exact ⟨h.1, h.2.1⟩

/-- Witness for C3: a fully successful concrete run ends in a terminal
status. -/
theorem orchestrator_terminal_iff_finished_witness :
    (runCampaignWorkflow oracleAllOk stateEx).campaign.status = .completed ∨
    (runCampaignWorkflow oracleAllOk stateEx).campaign.status = .failed :=
  (orchestrator_terminal_iff_finished oracleAllOk stateEx rfl).1

/-- C4: the subscription loop of the progress entrypoint breaks only on an
event whose type is `complete`: on the event stream of a failed run the
subscriber consumes the workflow-error event and is left awaiting further
events that never come, while on the stream of a completed run the loop
terminates. -/
theorem subscription_error_event_not_terminal :
    (campaignProgress .generating (runCampaignWorkflow oracleWriterFails stateEx).events).2
      = false ∧
    (campaignProgress .generating (runCampaignWorkflow oracleAllOk stateEx).events).2
      = true := by
  constructor <;> rfl

/-!
Association-list lemmas for the regeneration merge.
-/

theorem objGet_map_set_same (o : List (String × String)) (k v : String)
    (h : hasKey o k = true) :
    objGet (o.map (fun p => if p.1 == k then (k, v) else p)) k = some v := by
  induction o with
  | nil => simp [hasKey] at h
  | cons p rest ih =>
      obtain ⟨a, b⟩ := p
      by_cases hp : a = k
      · subst hp
        simp [objGet]
      · have hp' : (a == k) = false := by simpa using hp
        have hrest : hasKey rest k = true := by
          simpa [hasKey, hp'] using h
        simpa [objGet, hp'] using ih hrest

theorem objGet_append_missing (o : List (String × String)) (k v : String)
    (h : hasKey o k = false) :
    objGet (o ++ [(k, v)]) k = some v := by
  induction o with
  | nil => simp [objGet]
  | cons p rest ih =>
      obtain ⟨a, b⟩ := p
      simp only [hasKey, Bool.or_eq_false_iff] at h
      simpa [objGet, h.1] using ih h.2

theorem objGet_objSet_same (o : List (String × String)) (k v : String) :
    objGet (objSet o k v) k = some v := by
  by_cases h : hasKey o k = true
  · rw [objSet, if_pos h]
    exact objGet_map_set_same o k v h
  · have h' : hasKey o k = false := by simpa using h
    rw [objSet, if_neg (by simp [h'])]
    exact objGet_append_missing o k v h'

theorem objGet_map_set_ne (o : List (String × String)) (k v k' : String) (hne : k' ≠ k) :
    objGet (o.map (fun p => if p.1 == k then (k, v) else p)) k' = objGet o k' := by
  induction o with
  | nil => rfl
  | cons p rest ih =>
      obtain ⟨a, b⟩ := p
      have hkk' : (k == k') = false := by simpa using (Ne.symm hne)
      by_cases hp : a = k
      · subst hp
        simpa [objGet, hkk'] using ih
      · have hp' : (a == k) = false := by simpa using hp
        by_cases hq : a = k'
        · subst hq
          simp [objGet, hp']
        · have hq' : (a == k') = false := by simpa using hq
          simpa [objGet, hp', hq'] using ih

theorem objGet_append_ne (o : List (String × String)) (k v k' : String) (hne : k' ≠ k) :
    objGet (o ++ [(k, v)]) k' = objGet o k' := by
  induction o with
  | nil =>
      have hkk' : (k == k') = false := by simpa using (Ne.symm hne)
      simp [objGet, hkk']
  | cons p rest ih =>
      obtain ⟨a, b⟩ := p
      by_cases hq : a = k'
      · simp [objGet, hq]
      · have hq' : (a == k') = false := by simpa using hq
        simpa [objGet, hq'] using ih

theorem objGet_objSet_ne (o : List (String × String)) (k v k' : String) (hne : k' ≠ k) :
    objGet (objSet o k v) k' = objGet o k' := by
  by_cases h : hasKey o k = true
  · rw [objSet, if_pos h]
    exact objGet_map_set_ne o k v k' hne
  · rw [objSet, if_neg h]
    exact objGet_append_ne o k v k' hne

/-- C5: regenerating a tagline merges into the existing text-asset content
object: the tagline key gets the new value and every other key keeps its
prior value. -/
theorem regenerate_tagline_merges (existing : List (String × String)) (newTagline : String) :
    objGet (regenUpdatedContent (some existing) (.tagline newTagline)) "tagline"
      = some newTagline ∧
    ∀ k, k ≠ "tagline" →
      objGet (regenUpdatedContent (some existing) (.tagline newTagline)) k
        = objGet existing k := by
  refine ⟨?_, ?_⟩
  · simpa [regenUpdatedContent] using objGet_objSet_same existing "tagline" newTagline
  · intro k hk
    simpa [regenUpdatedContent] using objGet_objSet_ne existing "tagline" newTagline k hk

/-- Witness for C5 at the concrete content of the claim: `tagline A`,
`description B`, regenerated to tagline `C`. -/
theorem regenerate_tagline_merges_witness :
    objGet (regenUpdatedContent (some [("tagline", "A"), ("description", "B")]) (.tagline "C"))
      "tagline" = some "C" ∧
    objGet (regenUpdatedContent (some [("tagline", "A"), ("description", "B")]) (.tagline "C"))
      "description" = some "B" := by
  have h := regenerate_tagline_merges [("tagline", "A"), ("description", "B")] "C"
  refine ⟨h.1, ?_⟩
  rw [h.2 "description" (by decide)]
  rfl

/-- C6: regenerating social posts or ad copy replaces the stored content
object entirely: the result is exactly the rendering of the new generation
output, and its keys are the four platform fields (social) or the four
ad-copy fields, with no key of the old object surviving. -/
theorem regenerate_social_adcopy_replaces (old : Option (List (String × String)))
    (p : SocialPosts) (a : AdCopy) :
    regenUpdatedContent old (.social p) = socialObj p ∧
    objKeys (regenUpdatedContent old (.social p))
      = ["twitter", "linkedin", "instagram", "facebook"] ∧
    regenUpdatedContent old (.adCopy a) = adCopyObj a ∧
    objKeys (regenUpdatedContent old (.adCopy a))
      = ["headline", "bodyShort", "bodyLong", "cta"] :=
  ⟨rfl, rfl, rfl, rfl⟩

/-- C8: the image prompt construction is deterministic: two calls with
equal base context, brief, tagline and description yield equal prompt
strings. -/
theorem buildOpenSourceImagePrompt_deterministic (b₁ b₂ : String) (br₁ br₂ : Brief)
    (t₁ t₂ d₁ d₂ : String) (hb : b₁ = b₂) (hbr : br₁ = br₂) (ht : t₁ = t₂) (hd : d₁ = d₂) :
    buildOpenSourceImagePrompt b₁ br₁ t₁ d₁ = buildOpenSourceImagePrompt b₂ br₂ t₂ d₂ := by
  rw [hb, hbr, ht, hd]

/-- Witness for C8 at a concrete brief. -/
theorem buildOpenSourceImagePrompt_deterministic_witness :
    buildOpenSourceImagePrompt "Hero image" briefEx "t" "d"
      = buildOpenSourceImagePrompt "Hero image" briefEx "t" "d" :=
  buildOpenSourceImagePrompt_deterministic "Hero image" "Hero image" briefEx briefEx
    "t" "t" "d" "d" rfl rfl rfl rfl

/-- C9: an image-generation request whose prompt trims to the empty string
is rejected with the validation error and zero outbound HTTP requests. -/
theorem empty_prompt_rejected (env : EnvConfig) (hf : HFOracle) (rep : ReplicateOracle)
    (options : ImageGenerationOptions) (h : jsTrim options.prompt = "") :
    generateOpenSourceImage env hf rep options
      = (.error "Image prompt cannot be empty. Please provide a description.", 0) := by
  simp [generateOpenSourceImage, h]

/-- Witness for C9 on a whitespace-only prompt. -/
theorem empty_prompt_rejected_witness :
    generateOpenSourceImage envEx ⟨none⟩ replicateNeverDone ⟨"sdxl", "   "⟩
      = (.error "Image prompt cannot be empty. Please provide a description.", 0) :=
  empty_prompt_rejected envEx ⟨none⟩ replicateNeverDone ⟨"sdxl", "   "⟩ (by decide)

/-- C10: a campaign creation whose templateId matches no stored template
still creates the campaign, in `generating` status, with empty
templateInstructions. -/
theorem dangling_template_ignored (templates : List CampaignTemplate) (nextId userId : Nat)
    (input : CreateCampaignInput) (tid : Nat) (hin : input.templateId = some tid)
    (hmiss : ∀ t ∈ templates, t.id ≠ tid) :
    (createCampaign templates nextId userId input).status = .generating ∧
    (createCampaign templates nextId userId input).brief.templateInstructions = "" := by
  have hfind : templates.find? (fun t => t.id == tid) = none := by
    apply List.find?_eq_none.mpr
    intro t ht
    simpa using hmiss t ht
  refine ⟨rfl, ?_⟩
  by_cases htid : tid = 0 <;> simp [createCampaign, hin, hfind, htid]

/-- Witness for C10: templateId 9 matches no stored template. -/
theorem dangling_template_ignored_witness :
    (createCampaign templatesEx 10 7 createInputEx).status = .generating ∧
    (createCampaign templatesEx 10 7 createInputEx).brief.templateInstructions = "" :=
  dangling_template_ignored templatesEx 10 7 createInputEx 9 rfl (by decide)

/-!
Polling-loop lemmas for the asynchronous-job provider strategy.
-/

theorem replicatePollLoop_polls_le (o : ReplicateOracle) (model : String) :
    ∀ fuel attempts, (replicatePollLoop o model attempts fuel).polls ≤ fuel := by
  intro fuel
  induction fuel with
  | zero => intro attempts; simp [replicatePollLoop]
  | succ n ih =>
      intro attempts
      simp only [replicatePollLoop]
      split
      · simp
      · split
        · simp
        · split
          · simp
          · split
            · simp
            · simpa using Nat.succ_le_succ (ih (attempts + 1))

theorem replicatePollLoop_exhaust (o : ReplicateOracle) (model : String) :
    ∀ fuel attempts, (∀ j, j < fuel → pollDeciding (o.poll (attempts + j)) = false) →
      replicatePollLoop o model attempts fuel =
        ⟨.error ("Image generation with " ++ model
          ++ " timed out after 60 seconds. Please try again or select a different model."),
          fuel, 0⟩ := by
  intro fuel
  induction fuel with
  | zero => intro attempts h; rfl
  | succ n ih =>
      intro attempts h
      have h0 := h 0 (Nat.succ_pos n)
      rw [Nat.add_zero] at h0
      simp only [pollDeciding, Bool.or_eq_false_iff, Bool.not_eq_false'] at h0
      obtain ⟨⟨⟨hok, hs⟩, hf⟩, hc⟩ := h0
      have ih' := ih (attempts + 1) (fun j hj => by
        have h2 := h (j + 1) (Nat.succ_lt_succ hj)
        have heq : attempts + (j + 1) = attempts + 1 + j := by omega
        rwa [heq] at h2)
      simp [replicatePollLoop, hok, hs, hf, hc, ih']

theorem replicatePollLoop_decider_step (o : ReplicateOracle) (model : String)
    (fuel attempts : Nat) (hdec : pollDeciding (o.poll attempts) = true) :
    replicatePollLoop o model attempts (fuel + 1) =
      ⟨(pollOutcome o model (o.poll attempts)).1, 1,
        (pollOutcome o model (o.poll attempts)).2⟩ := by
  cases hok : (o.poll attempts).ok with
  | false => simp [replicatePollLoop, pollOutcome, hok]
  | true =>
      cases hs : (o.poll attempts).status == "succeeded" with
      | true => simp [replicatePollLoop, pollOutcome, hok, hs]
      | false =>
          cases hf : (o.poll attempts).status == "failed" with
          | true => simp [replicatePollLoop, pollOutcome, hok, hs, hf]
          | false =>
              cases hc : (o.poll attempts).status == "canceled" with
              | true => simp [replicatePollLoop, pollOutcome, hok, hs, hf, hc]
              | false =>
                  rw [pollDeciding, hok, hs, hf, hc] at hdec
                  simp at hdec

theorem replicatePollLoop_first_decider (o : ReplicateOracle) (model : String) :
    ∀ i fuel attempts, i < fuel →
      (∀ j, j < i → pollDeciding (o.poll (attempts + j)) = false) →
      pollDeciding (o.poll (attempts + i)) = true →
      replicatePollLoop o model attempts fuel =
        ⟨(pollOutcome o model (o.poll (attempts + i))).1, i + 1,
          (pollOutcome o model (o.poll (attempts + i))).2⟩ := by
  intro i
  induction i with
  | zero =>
      intro fuel attempts hlt hpre hdec
      rw [Nat.add_zero] at hdec ⊢
      match fuel, hlt with
      | n + 1, _ => exact replicatePollLoop_decider_step o model n attempts hdec
  | succ i ih =>
      intro fuel attempts hlt hpre hdec
      match fuel, hlt with
      | n + 1, hlt =>
        have h0 := hpre 0 (Nat.succ_pos i)
        rw [Nat.add_zero] at h0
        simp only [pollDeciding, Bool.or_eq_false_iff, Bool.not_eq_false'] at h0
        obtain ⟨⟨⟨hok, hs⟩, hf⟩, hc⟩ := h0
        have hshift : attempts + (i + 1) = attempts + 1 + i := by omega
        have ih' := ih n (attempts + 1) (by omega)
          (fun j hj => by
            have h2 := hpre (j + 1) (Nat.succ_lt_succ hj)
            have heq : attempts + (j + 1) = attempts + 1 + j := by omega
            rwa [heq] at h2)
          (by rwa [hshift] at hdec)
        rw [hshift]
        simp [replicatePollLoop, hok, hs, hf, hc, ih']

theorem replicateSucceededDownload_ok (o : ReplicateOracle) (model : String)
    (out : Option (List String)) (d : ReplicateDownloadResp)
    (hd : o.download = some d) (r : ImageGenerationResult)
    (hr : (replicateSucceededDownload o model out).1 = .ok r) :
    d.ok = true ∧ d.bytes ≠ [] ∧ r.base64 = base64Encode d.bytes ∧
      minBase64Length ≤ r.base64.length := by
  rcases out with _ | urls
  · simp [replicateSucceededDownload] at hr
  · by_cases h1 : urls.length = 0
    · simp [replicateSucceededDownload, h1] at hr
    · by_cases h2 : urls.head?.getD "" = ""
      · simp [replicateSucceededDownload, h1, h2] at hr
      · by_cases h3 : d.ok = true
        · by_cases h4 : d.bytes = []
          · simp [replicateSucceededDownload, hd, h1, h2, h3, h4] at hr
          · by_cases h5 : base64Encode d.bytes = "" ∨ (base64Encode d.bytes).length < minBase64Length
            · simp [replicateSucceededDownload, hd, h1, h2, h3, h4, h5] at hr
            · simp [replicateSucceededDownload, hd, h1, h2, h3, h4, h5] at hr
              obtain ⟨h5a, h5b⟩ := not_or.mp h5
              refine ⟨h3, h4, ?_, ?_⟩
              · rw [← hr]
              · rw [← hr]
                show minBase64Length ≤ (base64Encode d.bytes).length
                omega
        · simp [replicateSucceededDownload, hd, h1, h2, h3] at hr

/-- C7 (amended): after a successful job creation the asynchronous-job
strategy polls the status endpoint at a fixed one-second interval at most
60 times, and every run reaches a terminal outcome dictated by the first
deciding poll: `succeeded` enters the download-and-validate path (30-second
download timeout, payload non-empty and above the minimum base64 length),
`failed` surfaces the provider error detail, `canceled` fails terminally,
and exhausting the 60-attempt budget fails terminally with a hint to try
again or select a different model. -/
theorem replicate_async_polling (env : EnvConfig) (o : ReplicateOracle)
    (hkey : env.replicateApiToken ≠ "")
    (sr : ReplicateStartResp) (hs : o.start = some sr) (hok : sr.ok = true)
    (pid : String) (hid : sr.id = some pid) :
    replicatePollIntervalMs = 1000 ∧
    replicateMaxAttempts = 60 ∧
    replicateDownloadTimeoutMs = 30000 ∧
    (generateImageReplicate env o "flux-schnell").1 =
      (match (replicatePollLoop o "flux-schnell" 0 replicateMaxAttempts).result with
        | .ok v => .ok v
        | .error m => .error (replicateWrapError "flux-schnell" m)) ∧
    (replicatePollLoop o "flux-schnell" 0 replicateMaxAttempts).polls ≤ 60 ∧
    ((∀ j, j < 60 → pollDeciding (o.poll j) = false) →
      (replicatePollLoop o "flux-schnell" 0 replicateMaxAttempts).result
          = .error "Image generation with flux-schnell timed out after 60 seconds. Please try again or select a different model." ∧
        (replicatePollLoop o "flux-schnell" 0 replicateMaxAttempts).polls = 60) ∧
    (∀ i, i < 60 → (∀ j, j < i → pollDeciding (o.poll j) = false) →
      pollDeciding (o.poll i) = true →
      (replicatePollLoop o "flux-schnell" 0 replicateMaxAttempts).result
          = (pollOutcome o "flux-schnell" (o.poll i)).1 ∧
      ((o.poll i).ok = true → (o.poll i).status = "failed" →
        (pollOutcome o "flux-schnell" (o.poll i)).1
          = .error ("Image generation failed: " ++ (o.poll i).error.getD "Unknown error"
              ++ ". Please try again or select a different model.")) ∧
      ((o.poll i).ok = true → (o.poll i).status = "canceled" →
        (pollOutcome o "flux-schnell" (o.poll i)).1
          = .error "Image generation was canceled. Please try again.") ∧
      ((o.poll i).ok = true → (o.poll i).status = "succeeded" →
        (pollOutcome o "flux-schnell" (o.poll i)).1
          = (replicateSucceededDownload o "flux-schnell" (o.poll i).output).1)) ∧
    (∀ out d r, o.download = some d →
      (replicateSucceededDownload o "flux-schnell" out).1 = .ok r →
      d.ok = true ∧ d.bytes ≠ [] ∧ r.base64 = base64Encode d.bytes ∧
        minBase64Length ≤ r.base64.length) := by
  have hkey2 : (env.replicateApiToken == "") = false := by simpa using hkey
  refine ⟨rfl, rfl, rfl, ?_, replicatePollLoop_polls_le o "flux-schnell" replicateMaxAttempts 0,
    ?_, ?_, ?_⟩
  · simp [generateImageReplicate, replicateModelVersions, generateImageReplicateTryBody,
      hs, hok, hid, hkey2]
  · intro h
    rw [replicatePollLoop_exhaust o "flux-schnell" replicateMaxAttempts 0
      (fun j hj => by simpa using h j hj)]
    exact ⟨rfl, rfl⟩
  · intro i hi hpre hdec
    have hld := replicatePollLoop_first_decider o "flux-schnell" i replicateMaxAttempts 0 hi
      (fun j hj => by simpa using hpre j hj) (by simpa using hdec)
    rw [Nat.zero_add] at hld
    refine ⟨by rw [hld], ?_, ?_, ?_⟩
    · intro hok1 hstat
      simp [pollOutcome, hok1, hstat]
    · intro hok1 hstat
      simp [pollOutcome, hok1, hstat]
    · intro hok1 hstat
      simp [pollOutcome, hok1, hstat]
  · intro out d r hd hr
    exact replicateSucceededDownload_ok o "flux-schnell" out d hd r hr

/-- Witness for C7: a concrete run whose polls never decide exhausts the
budget with the timeout failure after exactly 60 polls. -/
theorem replicate_async_polling_witness :
    (replicatePollLoop replicateNeverDone "flux-schnell" 0 replicateMaxAttempts).result
        = .error "Image generation with flux-schnell timed out after 60 seconds. Please try again or select a different model." ∧
    (replicatePollLoop replicateNeverDone "flux-schnell" 0 replicateMaxAttempts).polls = 60 :=
  (replicate_async_polling envEx replicateNeverDone (by decide) ⟨true, 201, some "pred-1"⟩
    rfl rfl "pred-1" rfl).2.2.2.2.2.1 (fun j hj => rfl)

/-- C7 counterexample: on the run that exhausts the attempt budget the
client fails, but the message carries no faster-model hint: it reads
try again or select a different model, and the word faster does not occur
in it. -/
theorem replicate_timeout_no_faster_hint :
    (generateImageReplicate envEx replicateNeverDone "flux-schnell").1
      = .error "Image generation with flux-schnell timed out after 60 seconds. Please try again or select a different model." ∧
    containsSubstr "Image generation with flux-schnell timed out after 60 seconds. Please try again or select a different model." "faster" = false :=
  ⟨rfl, rfl⟩

end NeuralNet
